import Mathlib

/-!
Shallow embedding of qudi/hardware/camera/hamamatsu/hamamatsu_imagem_x2.py:
the class HamamatsuImagEMX2, a camera adapter that forwards a fixed plugin
interface to a DCAM camera session (pylablib.devices.DCAM.DCAMCamera).

Modelling choices:
- Python values relevant to the adapter-local caches are modelled by Val
  (Python None, numbers as rationals, strings).
- The SDK session (self.cam) is an Option DCAMCamera: None before
  activation; after activation it holds the device record.  Attributes the
  SDK stores (trigger mode, exposure, contrast gain, sensitivity, ROI) are
  deterministic fields of the record; hardware-dynamic query results
  (get_status, acquisition_in_progress) come from an oracle stream, one
  entry consumed per dynamic query, since their values are decided by the
  physical camera and not by this code.
- Every call into the SDK (and the process-global DLL path registration,
  pylablib.par) is logged in an event trace, so the claims about which SDK
  calls an operation issues and in which order become equations on traces.
- Python failures are modelled by Except PyErr: calling a method on
  self.cam when it is None raises AttributeError; reading the never
  initialised attribute _bin_value raises AttributeError; deleting a
  missing pylablib.par key raises KeyError.
-/

set_option autoImplicit false

namespace HamamatsuSpec

/-- Python values stored in the adapter-local caches. -/
inductive Val where
  | none
  | num (q : ℚ)
  | str (s : String)
deriving DecidableEq, Repr

/-- Python exceptions the adapter code can raise in the modelled paths. -/
inductive PyErr where
  | attributeError
  | keyError
deriving DecidableEq, Repr

/-- State of an open DCAM camera session: the attributes the SDK itself
stores and the adapter reads back deterministically. -/
structure DCAMCamera where
  opened : Bool
  exposure : ℚ
  triggerMode : String
  contrastGain : ℚ
  sensitivity : ℚ
  roi : ℚ × ℚ × ℚ × ℚ × ℚ
  nameParts : List String
deriving DecidableEq, Repr

/-- The session state right after DCAM.DCAMCamera() opens the device
(before the adapter applies its defaults). -/
def DCAMCamera.fresh : DCAMCamera :=
  { opened := true
    exposure := 0
    triggerMode := "int"
    contrastGain := 0
    sensitivity := 0
    roi := (0, 0, 0, 0, 0)
    nameParts := ["HAMAMATSU", "ImagEM", "X2"] }

/-- One event on the SDK / library boundary. -/
inductive SDKCall where
  | registerDLL (path : String)
  | unregisterDLL
  | openCamera
  | closeCamera
  | sdkSetExposure (v : ℚ)
  | sdkGetExposure
  | sdkGetTriggerMode
  | sdkSetTriggerMode (m : String)
  | setupAcquisition (mode : String) (nframes : ℕ)
  | startAcquisition (mode : String) (nframes : ℕ)
  | waitForFrame
  | sdkGetStatus
  | sdkStopAcquisition
  | sdkAcqInProgress
  | sdkReadNewestImage
  | sdkSetContrastGain (v : ℚ)
  | sdkGetContrastGain
  | sdkSetSensitivity (v : ℚ)
  | sdkGetSensitivity
  | sdkSetROI (hstart hend vstart vend hbin : ℚ)
  | sdkGetROI
  | sdkGetName
  | sdkGetDataDimensions
deriving DecidableEq, Repr

/-- The instance attributes of class HamamatsuImagEMX2.  The class level
initialisers are _gain = None and cam = None; _bin_value has no class
level initialiser, so Option.none here means the attribute does not exist
yet and reading it raises AttributeError. -/
structure HamamatsuImagEMX2 where
  _gain : Val := Val.none
  _bin_value : Option Val := Option.none
  cam : Option DCAMCamera := Option.none
deriving DecidableEq, Repr

/-- The ConfigOption values of the module. -/
structure Config where
  dll_location : String
  default_exposure : ℚ := 1
  default_gain : Val := Val.num 1
  default_acquisition_mode : String := "sequence"
  default_trigger_mode : String := "int"
  default_ROI : ℚ × ℚ × ℚ × ℚ := (0, 1, 0, 1)
  default_hbin : ℚ := 1
deriving DecidableEq, Repr

/-- The whole observable state: the adapter instance, the process-global
DLL path registration (pylablib.par), the trace of SDK boundary events,
and the oracle stream of hardware-reported (status, acquisition in
progress) answers, with clock counting how many have been consumed. -/
structure PyState where
  adapter : HamamatsuImagEMX2
  dllPath : Option String
  trace : List SDKCall
  oracle : ℕ → String × Bool
  clock : ℕ

/-- Initial process state: a fresh adapter instance, no DLL registration,
empty trace, a given hardware oracle. -/
def initState (o : ℕ → String × Bool) : PyState :=
  { adapter := {}
    dllPath := Option.none
    trace := []
    oracle := o
    clock := 0 }

/-- Append one SDK boundary event to the trace. -/
def logCall (s : PyState) (c : SDKCall) : PyState :=
  { s with trace := s.trace ++ [c] }

/-- Consume one oracle entry: self.cam.get_status(). -/
def queryStatus (s : PyState) : PyState × String :=
  ((logCall { s with clock := s.clock + 1 } SDKCall.sdkGetStatus), (s.oracle s.clock).1)

/-- Consume one oracle entry: self.cam.acquisition_in_progress(). -/
def queryAcqInProgress (s : PyState) : PyState × Bool :=
  ((logCall { s with clock := s.clock + 1 } SDKCall.sdkAcqInProgress), (s.oracle s.clock).2)

/-- Replace the device record held in self.cam. -/
def setCam (s : PyState) (c : Option DCAMCamera) : PyState :=
  { s with adapter := { s.adapter with cam := c } }

/-- def set_gain(self, gain): self._gain = gain -/
def set_gain (s : PyState) (gain : Val) : PyState :=
  { s with adapter := { s.adapter with _gain := gain } }

/-- def get_gain(self): return self._gain -/
def get_gain (s : PyState) : Val :=
  s.adapter._gain

/-- def set_binning_value(self, bin_value): self._bin_value = bin_value -/
def set_binning_value (s : PyState) (b : Val) : PyState :=
  { s with adapter := { s.adapter with _bin_value := Option.some b } }

/-- def get_binning_value(self): return self._bin_value.  Raises
AttributeError if set_binning_value has never been called, since the class
has no initialiser for _bin_value. -/
def get_binning_value (s : PyState) : Except PyErr Val :=
  match s.adapter._bin_value with
  | Option.none => Except.error PyErr.attributeError
  | Option.some v => Except.ok v

/-- def on_activate(self): registers the DLL path in pylablib.par, opens
the device (DCAM.DCAMCamera()), applies the default exposure via the SDK,
and caches the default gain via set_gain. -/
def on_activate (cfg : Config) (s : PyState) : PyState :=
  let s1 := logCall { s with dllPath := Option.some cfg.dll_location }
      (SDKCall.registerDLL cfg.dll_location)
  let s2 := logCall (setCam s1 (Option.some DCAMCamera.fresh)) SDKCall.openCamera
  let s3 := logCall
      (setCam s2 (Option.some { DCAMCamera.fresh with exposure := cfg.default_exposure }))
      (SDKCall.sdkSetExposure cfg.default_exposure)
  set_gain s3 cfg.default_gain

/-- def on_deactivate(self): self.cam.close(); del pylablib.par key.
Raises AttributeError when self.cam is None, KeyError when the DLL path
key is not registered.  Closing does not reset self.cam to None: the field
keeps the (now closed) session object. -/
def on_deactivate (s : PyState) : Except PyErr PyState :=
  match s.adapter.cam with
  | Option.none => Except.error PyErr.attributeError
  | Option.some c =>
    let s1 := logCall (setCam s (Option.some { c with opened := false })) SDKCall.closeCamera
    match s1.dllPath with
    | Option.none => Except.error PyErr.keyError
    | Option.some _ =>
      Except.ok (logCall { s1 with dllPath := Option.none } SDKCall.unregisterDLL)

/-- def get_name(self): return " ".join(list(tuple(self.cam.get_name()))) -/
def get_name (s : PyState) : Except PyErr (PyState × String) :=
  match s.adapter.cam with
  | Option.none => Except.error PyErr.attributeError
  | Option.some c =>
    Except.ok (logCall s SDKCall.sdkGetName, String.intercalate " " c.nameParts)

/-- def get_size(self): return self.cam.get_data_dimensions() -/
def get_size (s : PyState) : Except PyErr PyState :=
  match s.adapter.cam with
  | Option.none => Except.error PyErr.attributeError
  | Option.some _ => Except.ok (logCall s SDKCall.sdkGetDataDimensions)

/-- def support_live_acquisition(self): return True -/
def support_live_acquisition (_s : PyState) : Bool :=
  true

/-- def set_exposure(self, exposure): self.cam.set_exposure(exposure) -/
def set_exposure (s : PyState) (exposure : ℚ) : Except PyErr PyState :=
  match s.adapter.cam with
  | Option.none => Except.error PyErr.attributeError
  | Option.some c =>
    Except.ok (logCall (setCam s (Option.some { c with exposure := exposure }))
      (SDKCall.sdkSetExposure exposure))

/-- def get_exposure(self): return self.cam.get_exposure() -/
def get_exposure (s : PyState) : Except PyErr (PyState × ℚ) :=
  match s.adapter.cam with
  | Option.none => Except.error PyErr.attributeError
  | Option.some c => Except.ok (logCall s SDKCall.sdkGetExposure, c.exposure)

/-- def set_contrast_gain(self, value): self.cam.set_contrast_gain(value) -/
def set_contrast_gain (s : PyState) (v : ℚ) : Except PyErr PyState :=
  match s.adapter.cam with
  | Option.none => Except.error PyErr.attributeError
  | Option.some c =>
    Except.ok (logCall (setCam s (Option.some { c with contrastGain := v }))
      (SDKCall.sdkSetContrastGain v))

/-- def get_contrast_gain(self): return self.cam.get_contrast_gain() -/
def get_contrast_gain (s : PyState) : Except PyErr (PyState × ℚ) :=
  match s.adapter.cam with
  | Option.none => Except.error PyErr.attributeError
  | Option.some c => Except.ok (logCall s SDKCall.sdkGetContrastGain, c.contrastGain)

/-- def set_sensitivity(self, value): self.cam.set_sensitivity(value) -/
def set_sensitivity (s : PyState) (v : ℚ) : Except PyErr PyState :=
  match s.adapter.cam with
  | Option.none => Except.error PyErr.attributeError
  | Option.some c =>
    Except.ok (logCall (setCam s (Option.some { c with sensitivity := v }))
      (SDKCall.sdkSetSensitivity v))

/-- def get_sensitivity(self): return self.cam.get_sensitivity() -/
def get_sensitivity (s : PyState) : Except PyErr (PyState × ℚ) :=
  match s.adapter.cam with
  | Option.none => Except.error PyErr.attributeError
  | Option.some c => Except.ok (logCall s SDKCall.sdkGetSensitivity, c.sensitivity)

/-- def set_region_of_interest(self, hstart, hend, vstart, vend, hbin):
self.cam.set_roi(hstart, hend, vstart, vend, hbin) -/
def set_region_of_interest (s : PyState) (hstart hend vstart vend hbin : ℚ) :
    Except PyErr PyState :=
  match s.adapter.cam with
  | Option.none => Except.error PyErr.attributeError
  | Option.some c =>
    Except.ok (logCall (setCam s (Option.some { c with roi := (hstart, hend, vstart, vend, hbin) }))
      (SDKCall.sdkSetROI hstart hend vstart vend hbin))

/-- def get_ROI(self): return self.cam.get_roi() -/
def get_ROI (s : PyState) : Except PyErr (PyState × (ℚ × ℚ × ℚ × ℚ × ℚ)) :=
  match s.adapter.cam with
  | Option.none => Except.error PyErr.attributeError
  | Option.some c => Except.ok (logCall s SDKCall.sdkGetROI, c.roi)

/-- def set_trigger_mode(self, trigger_mode): self.cam.set_trigger_mode(trigger_mode) -/
def set_trigger_mode (s : PyState) (m : String) : Except PyErr PyState :=
  match s.adapter.cam with
  | Option.none => Except.error PyErr.attributeError
  | Option.some c =>
    Except.ok (logCall (setCam s (Option.some { c with triggerMode := m }))
      (SDKCall.sdkSetTriggerMode m))

/-- def get_trigger_mode(self): return self.cam.get_trigger_mode() -/
def get_trigger_mode (s : PyState) : Except PyErr (PyState × String) :=
  match s.adapter.cam with
  | Option.none => Except.error PyErr.attributeError
  | Option.some c => Except.ok (logCall s SDKCall.sdkGetTriggerMode, c.triggerMode)

/-- def get_acquired_data(self): return self.cam.read_newest_image() -/
def get_acquired_data (s : PyState) : Except PyErr PyState :=
  match s.adapter.cam with
  | Option.none => Except.error PyErr.attributeError
  | Option.some _ => Except.ok (logCall s SDKCall.sdkReadNewestImage)

/-- def _get_status(self): return self.cam.get_status() -/
def _get_status (s : PyState) : Except PyErr (PyState × String) :=
  match s.adapter.cam with
  | Option.none => Except.error PyErr.attributeError
  | Option.some _ => Except.ok (queryStatus s)

/-- def start_single_acquisition(self): if trigger mode is not int, set it
to int; then setup_acquisition('snap', 1), start_acquisition('snap', 1),
wait_for_frame(), and return get_status() != 'error'. -/
def start_single_acquisition (s : PyState) : Except PyErr (PyState × Bool) :=
  match get_trigger_mode s with
  | Except.error e => Except.error e
  | Except.ok (s1, tm) =>
    let s2e := if tm != "int" then set_trigger_mode s1 "int" else Except.ok s1
    match s2e with
    | Except.error e => Except.error e
    | Except.ok s2 =>
      let s3 := logCall s2 (SDKCall.setupAcquisition "snap" 1)
      let s4 := logCall s3 (SDKCall.startAcquisition "snap" 1)
      let s5 := logCall s4 SDKCall.waitForFrame
      let p := queryStatus s5
      Except.ok (p.1, p.2 != "error")

/-- def start_live_acquisition(self): if trigger mode is not int, set it
to int; then setup_acquisition('sequence', 100),
start_acquisition('sequence', 100), and return get_status() != 'error'. -/
def start_live_acquisition (s : PyState) : Except PyErr (PyState × Bool) :=
  match get_trigger_mode s with
  | Except.error e => Except.error e
  | Except.ok (s1, tm) =>
    let s2e := if tm != "int" then set_trigger_mode s1 "int" else Except.ok s1
    match s2e with
    | Except.error e => Except.error e
    | Except.ok s2 =>
      let s3 := logCall s2 (SDKCall.setupAcquisition "sequence" 100)
      let s4 := logCall s3 (SDKCall.startAcquisition "sequence" 100)
      let p := queryStatus s4
      Except.ok (p.1, p.2 != "error")

/-- def stop_acquisition(self): self.cam.stop_acquisition(); return not
acquisition_in_progress(). -/
def stop_acquisition (s : PyState) : Except PyErr (PyState × Bool) :=
  match s.adapter.cam with
  | Option.none => Except.error PyErr.attributeError
  | Option.some _ =>
    let s1 := logCall s SDKCall.sdkStopAcquisition
    let p := queryAcqInProgress s1
    Except.ok (p.1, !p.2)

/-- def get_ready_state(self): return get_status() == 'ready'. -/
def get_ready_state (s : PyState) : Except PyErr (PyState × Bool) :=
  match s.adapter.cam with
  | Option.none => Except.error PyErr.attributeError
  | Option.some _ =>
    let p := queryStatus s
    Except.ok (p.1, p.2 == "ready")

/-- One adapter-interface operation, for reasoning about arbitrary call
sequences on the instance. -/
inductive Op where
  | opActivate (cfg : Config)
  | opDeactivate
  | opSetGain (g : Val)
  | opGetGain
  | opSetBinning (b : Val)
  | opGetBinning
  | opSetExposure (e : ℚ)
  | opGetExposure
  | opSetContrastGain (v : ℚ)
  | opGetContrastGain
  | opSetSensitivity (v : ℚ)
  | opGetSensitivity
  | opSetROI (hstart hend vstart vend hbin : ℚ)
  | opGetROI
  | opSetTriggerMode (m : String)
  | opGetTriggerMode
  | opStartSingle
  | opStartLive
  | opStop
  | opGetReadyState
  | opGetAcquiredData
  | opGetName
  | opGetSize
  | opGetStatus
deriving DecidableEq, Repr

/-- Run one interface operation, discarding its return value.  A Python
exception aborts the run. -/
def runOp (s : PyState) : Op → Except PyErr PyState
  | Op.opActivate cfg => Except.ok (on_activate cfg s)
  | Op.opDeactivate => on_deactivate s
  | Op.opSetGain g => Except.ok (set_gain s g)
  | Op.opGetGain => Except.ok s
  | Op.opSetBinning b => Except.ok (set_binning_value s b)
  | Op.opGetBinning => (get_binning_value s).map (fun _ => s)
  | Op.opSetExposure e => set_exposure s e
  | Op.opGetExposure => (get_exposure s).map Prod.fst
  | Op.opSetContrastGain v => set_contrast_gain s v
  | Op.opGetContrastGain => (get_contrast_gain s).map Prod.fst
  | Op.opSetSensitivity v => set_sensitivity s v
  | Op.opGetSensitivity => (get_sensitivity s).map Prod.fst
  | Op.opSetROI hs he vs ve hb => set_region_of_interest s hs he vs ve hb
  | Op.opGetROI => (get_ROI s).map Prod.fst
  | Op.opSetTriggerMode m => set_trigger_mode s m
  | Op.opGetTriggerMode => (get_trigger_mode s).map Prod.fst
  | Op.opStartSingle => (start_single_acquisition s).map Prod.fst
  | Op.opStartLive => (start_live_acquisition s).map Prod.fst
  | Op.opStop => (stop_acquisition s).map Prod.fst
  | Op.opGetReadyState => (get_ready_state s).map Prod.fst
  | Op.opGetAcquiredData => get_acquired_data s
  | Op.opGetName => (get_name s).map Prod.fst
  | Op.opGetSize => get_size s
  | Op.opGetStatus => ( _get_status s).map Prod.fst

/-- Run a sequence of interface operations, aborting at the first
exception. -/
def runOps (s : PyState) : List Op → Except PyErr PyState
  | [] => Except.ok s
  | op :: ops =>
    match runOp s op with
    | Except.error e => Except.error e
    | Except.ok s1 => runOps s1 ops

/-- The operations that forward to the SDK session (everything except the
purely cache-local gain and binning setters/getter and the lifecycle
activate, which re-applies the configured default gain). -/
def forwardsToSDK : Op → Bool
  | Op.opActivate _ => false
  | Op.opSetGain _ => false
  | Op.opGetGain => false
  | Op.opSetBinning _ => false
  | Op.opGetBinning => false
  | _ => true

@[simp] theorem logCall_adapter (s : PyState) (c : SDKCall) :
    (logCall s c).adapter = s.adapter := rfl

@[simp] theorem logCall_dllPath (s : PyState) (c : SDKCall) :
    (logCall s c).dllPath = s.dllPath := rfl

@[simp] theorem logCall_trace (s : PyState) (c : SDKCall) :
    (logCall s c).trace = s.trace ++ [c] := rfl

@[simp] theorem logCall_oracle (s : PyState) (c : SDKCall) :
    (logCall s c).oracle = s.oracle := rfl

@[simp] theorem logCall_clock (s : PyState) (c : SDKCall) :
    (logCall s c).clock = s.clock := rfl

@[simp] theorem setCam_gain (s : PyState) (c : Option DCAMCamera) :
    (setCam s c).adapter._gain = s.adapter._gain := rfl

@[simp] theorem setCam_bin (s : PyState) (c : Option DCAMCamera) :
    (setCam s c).adapter._bin_value = s.adapter._bin_value := rfl

@[simp] theorem setCam_cam (s : PyState) (c : Option DCAMCamera) :
    (setCam s c).adapter.cam = c := rfl

@[simp] theorem setCam_dllPath (s : PyState) (c : Option DCAMCamera) :
    (setCam s c).dllPath = s.dllPath := rfl

@[simp] theorem setCam_trace (s : PyState) (c : Option DCAMCamera) :
    (setCam s c).trace = s.trace := rfl

@[simp] theorem setCam_oracle (s : PyState) (c : Option DCAMCamera) :
    (setCam s c).oracle = s.oracle := rfl

@[simp] theorem setCam_clock (s : PyState) (c : Option DCAMCamera) :
    (setCam s c).clock = s.clock := rfl

@[simp] theorem queryStatus_fst (s : PyState) :
    (queryStatus s).1 = logCall { s with clock := s.clock + 1 } SDKCall.sdkGetStatus := rfl

@[simp] theorem queryStatus_snd (s : PyState) :
    (queryStatus s).2 = (s.oracle s.clock).1 := rfl

@[simp] theorem queryAcqInProgress_fst (s : PyState) :
    (queryAcqInProgress s).1 = logCall { s with clock := s.clock + 1 } SDKCall.sdkAcqInProgress :=
  rfl

@[simp] theorem queryAcqInProgress_snd (s : PyState) :
    (queryAcqInProgress s).2 = (s.oracle s.clock).2 := rfl

@[simp] theorem clockBump_adapter (s : PyState) (n : ℕ) :
    ({ s with clock := n } : PyState).adapter = s.adapter := rfl

@[simp] theorem clockBump_dllPath (s : PyState) (n : ℕ) :
    ({ s with clock := n } : PyState).dllPath = s.dllPath := rfl

@[simp] theorem clockBump_trace (s : PyState) (n : ℕ) :
    ({ s with clock := n } : PyState).trace = s.trace := rfl

theorem runOp_preserves_gain (s : PyState) (op : Op) (hfwd : forwardsToSDK op = true)
    (s1 : PyState) (h : runOp s op = Except.ok s1) :
    s1.adapter._gain = s.adapter._gain := by
  cases op with
  | opActivate cfg => simp [forwardsToSDK] at hfwd
  | opSetGain g => simp [forwardsToSDK] at hfwd
  | opGetGain => simp [forwardsToSDK] at hfwd
  | opSetBinning b => simp [forwardsToSDK] at hfwd
  | opGetBinning => simp [forwardsToSDK] at hfwd
  | opDeactivate =>
    cases hcam : s.adapter.cam with
    | none => simp [runOp, on_deactivate, hcam] at h
    | some c =>
      simp only [runOp, on_deactivate, hcam, logCall_dllPath, setCam_dllPath] at h
      cases hd : s.dllPath <;> rw [hd] at h
      · cases h
      · cases h
        simp
  | opSetExposure e =>
    cases hcam : s.adapter.cam with
    | none => simp [runOp, set_exposure, hcam] at h
    | some c =>
      simp only [runOp, set_exposure, hcam] at h
      cases h
      simp
  | opGetExposure =>
    cases hcam : s.adapter.cam with
    | none => simp [runOp, get_exposure, hcam, Except.map] at h
    | some c =>
      simp only [runOp, get_exposure, hcam, Except.map] at h
      cases h
      simp
  | opSetContrastGain v =>
    cases hcam : s.adapter.cam with
    | none => simp [runOp, set_contrast_gain, hcam] at h
    | some c =>
      simp only [runOp, set_contrast_gain, hcam] at h
      cases h
      simp
  | opGetContrastGain =>
    cases hcam : s.adapter.cam with
    | none => simp [runOp, get_contrast_gain, hcam, Except.map] at h
    | some c =>
      simp only [runOp, get_contrast_gain, hcam, Except.map] at h
      cases h
      simp
  | opSetSensitivity v =>
    cases hcam : s.adapter.cam with
    | none => simp [runOp, set_sensitivity, hcam] at h
    | some c =>
      simp only [runOp, set_sensitivity, hcam] at h
      cases h
      simp
  | opGetSensitivity =>
    cases hcam : s.adapter.cam with
    | none => simp [runOp, get_sensitivity, hcam, Except.map] at h
    | some c =>
      simp only [runOp, get_sensitivity, hcam, Except.map] at h
      cases h
      simp
  | opSetROI hs he vs ve hb =>
    cases hcam : s.adapter.cam with
    | none => simp [runOp, set_region_of_interest, hcam] at h
    | some c =>
      simp only [runOp, set_region_of_interest, hcam] at h
      cases h
      simp
  | opGetROI =>
    cases hcam : s.adapter.cam with
    | none => simp [runOp, get_ROI, hcam, Except.map] at h
    | some c =>
      simp only [runOp, get_ROI, hcam, Except.map] at h
      cases h
      simp
  | opSetTriggerMode m =>
    cases hcam : s.adapter.cam with
    | none => simp [runOp, set_trigger_mode, hcam] at h
    | some c =>
      simp only [runOp, set_trigger_mode, hcam] at h
      cases h
      simp
  | opGetTriggerMode =>
    cases hcam : s.adapter.cam with
    | none => simp [runOp, get_trigger_mode, hcam, Except.map] at h
    | some c =>
      simp only [runOp, get_trigger_mode, hcam, Except.map] at h
      cases h
      simp
  | opStartSingle =>
    cases hcam : s.adapter.cam with
    | none => simp [runOp, start_single_acquisition, get_trigger_mode, hcam, Except.map] at h
    | some c =>
      by_cases hm : c.triggerMode = "int" <;>
        simp only [runOp, start_single_acquisition, get_trigger_mode, set_trigger_mode,
          setCam_cam, hcam, hm, Except.map, bne_self_eq_false, Bool.false_eq_true,
          if_false, if_true, bne, beq_self_eq_true, Bool.not_true, Bool.not_false,
          logCall_adapter, ne_eq] at h
      · cases h
        simp
      · rw [if_pos (by simpa using hm)] at h
        cases h
        simp
  | opStartLive =>
    cases hcam : s.adapter.cam with
    | none => simp [runOp, start_live_acquisition, get_trigger_mode, hcam, Except.map] at h
    | some c =>
      by_cases hm : c.triggerMode = "int" <;>
        simp only [runOp, start_live_acquisition, get_trigger_mode, set_trigger_mode,
          setCam_cam, hcam, hm, Except.map, bne_self_eq_false, Bool.false_eq_true,
          if_false, if_true, bne, beq_self_eq_true, Bool.not_true, Bool.not_false,
          logCall_adapter, ne_eq] at h
      · cases h
        simp
      · rw [if_pos (by simpa using hm)] at h
        cases h
        simp
  | opStop =>
    cases hcam : s.adapter.cam with
    | none => simp [runOp, stop_acquisition, hcam, Except.map] at h
    | some c =>
      simp only [runOp, stop_acquisition, hcam, Except.map] at h
      cases h
      simp
  | opGetReadyState =>
    cases hcam : s.adapter.cam with
    | none => simp [runOp, get_ready_state, hcam, Except.map] at h
    | some c =>
      simp only [runOp, get_ready_state, hcam, Except.map] at h
      cases h
      simp
  | opGetAcquiredData =>
    cases hcam : s.adapter.cam with
    | none => simp [runOp, get_acquired_data, hcam] at h
    | some c =>
      simp only [runOp, get_acquired_data, hcam] at h
      cases h
      simp
  | opGetName =>
    cases hcam : s.adapter.cam with
    | none => simp [runOp, get_name, hcam, Except.map] at h
    | some c =>
      simp only [runOp, get_name, hcam, Except.map] at h
      cases h
      simp
  | opGetSize =>
    cases hcam : s.adapter.cam with
    | none => simp [runOp, get_size, hcam] at h
    | some c =>
      simp only [runOp, get_size, hcam] at h
      cases h
      simp
  | opGetStatus =>
    cases hcam : s.adapter.cam with
    | none => simp [runOp, _get_status, hcam, Except.map] at h
    | some c =>
      simp only [runOp, _get_status, hcam, Except.map] at h
      cases h
      simp

theorem runOps_preserves_gain (ops : List Op) :
    ∀ s s1 : PyState, (∀ op ∈ ops, forwardsToSDK op = true) →
      runOps s ops = Except.ok s1 → s1.adapter._gain = s.adapter._gain := by
  induction ops with
  | nil =>
    intro s s1 _ h
    cases h
    rfl
  | cons op ops ih =>
    intro s s1 hall h
    simp only [runOps] at h
    cases hop : runOp s op with
    | error e => rw [hop] at h; cases h
    | ok s2 =>
      rw [hop] at h
      have h2 := ih s2 s1 (fun o ho => hall o (List.mem_cons_of_mem op ho)) h
      have h1 := runOp_preserves_gain s op (hall op (List.mem_cons_self op ops)) s2 hop
      rw [h2, h1]

/-- C1: get_gain returns the adapter-local cached gain: after set_gain(g),
any sequence of SDK-forwarding interface operations that completes without
an exception leaves get_gain returning exactly g; the value never comes
from the device session. -/
theorem gain_returned_from_cache (g : Val) (s : PyState) (ops : List Op)
    (hops : ∀ op ∈ ops, forwardsToSDK op = true)
    (s1 : PyState) (hrun : runOps (set_gain s g) ops = Except.ok s1) :
    get_gain s1 = g := by
  have h := runOps_preserves_gain ops (set_gain s g) s1 hops hrun
  simpa [get_gain, set_gain] using h

/-- Concrete hardware oracle for witnesses: always reports status ready
and no acquisition in progress. -/
def oracle0 : ℕ → String × Bool := fun _ => ("ready", false)

/-- Concrete configuration for witnesses. -/
def cfg0 : Config := { dll_location := "C:/Adyant/dlls" }

/-- Fresh process state for witnesses. -/
def sys0 : PyState := initState oracle0

/-- Process state right after activation, for witnesses. -/
def sysActive : PyState := on_activate cfg0 sys0

/-- A concrete sequence of SDK-forwarding operations for the C1 witness. -/
def wOps : List Op :=
  [Op.opSetExposure 2, Op.opStartSingle, Op.opGetReadyState, Op.opSetTriggerMode "ext",
   Op.opStartLive, Op.opStop, Op.opGetTriggerMode, Op.opGetName, Op.opDeactivate]

/-- The state reached by the C1 witness run. -/
def wC1res : PyState :=
  match runOps (set_gain sysActive (Val.num 5)) wOps with
  | Except.ok s => s
  | Except.error _ => sys0

theorem gain_returned_from_cache_witness : get_gain wC1res = Val.num 5 :=
  gain_returned_from_cache (Val.num 5) sysActive wOps (by decide) wC1res rfl

/-- The state reached by deactivating right after activating, for the C2
counterexample and witnesses. -/
def wC2res : PyState :=
  match on_deactivate sysActive with
  | Except.ok s => s
  | Except.error _ => sys0

/-- C2 counterexample: after on_activate followed by on_deactivate, the
cam field is NOT null: on_deactivate closes the session but never resets
self.cam, so the field still holds the (closed) session object. -/
theorem cam_not_null_after_deactivate :
    on_deactivate sysActive = Except.ok wC2res ∧ wC2res.adapter.cam ≠ Option.none := by
  refine ⟨rfl, ?_⟩
  decide

/-- C2 (amended): the cam field is non-null after on_activate completes;
whenever on_deactivate completes it leaves cam non-null as well, holding
the session object with its opened flag cleared (the session is closed but
the field is never reset to null). -/
theorem session_handle_lifecycle (cfg : Config) (s s1 : PyState)
    (h : on_deactivate s = Except.ok s1) :
    (on_activate cfg s).adapter.cam ≠ Option.none ∧
    s1.adapter.cam ≠ Option.none ∧
    (∃ c : DCAMCamera, s1.adapter.cam = Option.some c ∧ c.opened = false) := by
  refine ⟨by simp [on_activate, set_gain], ?_, ?_⟩ <;>
  · simp only [on_deactivate] at h
    cases hcam : s.adapter.cam <;> rw [hcam] at h
    · cases h
    · simp only [logCall_dllPath, setCam_dllPath] at h
      cases hd : s.dllPath <;> rw [hd] at h
      · cases h
      · cases h
        simp [logCall, setCam]

theorem session_handle_lifecycle_witness :
    (on_activate cfg0 sysActive).adapter.cam ≠ Option.none ∧
    wC2res.adapter.cam ≠ Option.none ∧
    (∃ c : DCAMCamera, wC2res.adapter.cam = Option.some c ∧ c.opened = false) :=
  session_handle_lifecycle cfg0 sysActive wC2res rfl

theorem start_single_acquisition_run (s : PyState) (c : DCAMCamera)
    (hcam : s.adapter.cam = Option.some c) (s1 : PyState) (b : Bool)
    (h : start_single_acquisition s = Except.ok (s1, b)) :
    b = ((s.oracle s.clock).1 != "error") ∧
    s1.trace = s.trace ++ [SDKCall.sdkGetTriggerMode] ++
      (if c.triggerMode = "int" then [] else [SDKCall.sdkSetTriggerMode "int"]) ++
      [SDKCall.setupAcquisition "snap" 1, SDKCall.startAcquisition "snap" 1,
       SDKCall.waitForFrame, SDKCall.sdkGetStatus] ∧
    s1.clock = s.clock + 1 := by
  by_cases hm : c.triggerMode = "int"
  · simp [start_single_acquisition, get_trigger_mode, hcam, hm] at h
    obtain ⟨h1, h2⟩ := h
    subst h1
    refine ⟨h2.symm, ?_, ?_⟩ <;> simp [hm, logCall]
  · simp [start_single_acquisition, get_trigger_mode, set_trigger_mode, hcam, hm] at h
    obtain ⟨h1, h2⟩ := h
    subst h1
    refine ⟨h2.symm, ?_, ?_⟩ <;> simp [hm, logCall, setCam]

theorem start_live_acquisition_run (s : PyState) (c : DCAMCamera)
    (hcam : s.adapter.cam = Option.some c) (s1 : PyState) (b : Bool)
    (h : start_live_acquisition s = Except.ok (s1, b)) :
    b = ((s.oracle s.clock).1 != "error") ∧
    s1.trace = s.trace ++ [SDKCall.sdkGetTriggerMode] ++
      (if c.triggerMode = "int" then [] else [SDKCall.sdkSetTriggerMode "int"]) ++
      [SDKCall.setupAcquisition "sequence" 100, SDKCall.startAcquisition "sequence" 100,
       SDKCall.sdkGetStatus] ∧
    s1.clock = s.clock + 1 := by
  by_cases hm : c.triggerMode = "int"
  · simp [start_live_acquisition, get_trigger_mode, hcam, hm] at h
    obtain ⟨h1, h2⟩ := h
    subst h1
    refine ⟨h2.symm, ?_, ?_⟩ <;> simp [hm, logCall]
  · simp [start_live_acquisition, get_trigger_mode, set_trigger_mode, hcam, hm] at h
    obtain ⟨h1, h2⟩ := h
    subst h1
    refine ⟨h2.symm, ?_, ?_⟩ <;> simp [hm, logCall, setCam]

/-- C3: whenever start_single_acquisition runs with the trigger mode not
internal, its SDK trace is the trigger-mode query, then trigger-mode-set
to internal, then setup-acquisition, start-acquisition and wait-for-frame
in that order (followed by the status query deciding the return value);
when the mode is already internal, no trigger-mode-set call appears. -/
theorem start_single_trigger_order (s : PyState) (c : DCAMCamera)
    (hcam : s.adapter.cam = Option.some c) (s1 : PyState) (b : Bool)
    (h : start_single_acquisition s = Except.ok (s1, b)) :
    s1.trace = s.trace ++ [SDKCall.sdkGetTriggerMode] ++
      (if c.triggerMode = "int" then [] else [SDKCall.sdkSetTriggerMode "int"]) ++
      [SDKCall.setupAcquisition "snap" 1, SDKCall.startAcquisition "snap" 1,
       SDKCall.waitForFrame, SDKCall.sdkGetStatus] :=
  (start_single_acquisition_run s c hcam s1 b h).2.1

/-- A concrete activated state whose trigger mode is external. -/
def wExt : PyState :=
  match set_trigger_mode sysActive "ext" with
  | Except.ok s => s
  | Except.error _ => sys0

/-- The state and result of the C3/C4 witness run of
start_single_acquisition on a state whose trigger mode is external. -/
def wC3res : PyState × Bool :=
  match start_single_acquisition wExt with
  | Except.ok p => p
  | Except.error _ => (sys0, false)

theorem start_single_trigger_order_witness :
    wC3res.1.trace = wExt.trace ++ [SDKCall.sdkGetTriggerMode] ++
      (if ({ DCAMCamera.fresh with exposure := 1, triggerMode := "ext" } :
          DCAMCamera).triggerMode = "int" then []
        else [SDKCall.sdkSetTriggerMode "int"]) ++
      [SDKCall.setupAcquisition "snap" 1, SDKCall.startAcquisition "snap" 1,
       SDKCall.waitForFrame, SDKCall.sdkGetStatus] :=
  start_single_trigger_order wExt
    { DCAMCamera.fresh with exposure := 1, triggerMode := "ext" } rfl
    wC3res.1 wC3res.2 rfl

/-- C4: start_single_acquisition and start_live_acquisition return false
iff the SDK status queried after starting equals the string error, and
start_live_acquisition arms a continuous sequence capture with a fixed
100-frame buffer. -/
theorem start_acquisition_false_iff_error (s : PyState) (c : DCAMCamera)
    (hcam : s.adapter.cam = Option.some c)
    (s1 s2 : PyState) (b1 b2 : Bool)
    (h1 : start_single_acquisition s = Except.ok (s1, b1))
    (h2 : start_live_acquisition s = Except.ok (s2, b2)) :
    (b1 = false ↔ (s.oracle s.clock).1 = "error") ∧
    (b2 = false ↔ (s.oracle s.clock).1 = "error") ∧
    SDKCall.setupAcquisition "sequence" 100 ∈ s2.trace ∧
    SDKCall.startAcquisition "sequence" 100 ∈ s2.trace := by
  obtain ⟨hb1, -, -⟩ := start_single_acquisition_run s c hcam s1 b1 h1
  obtain ⟨hb2, htr, -⟩ := start_live_acquisition_run s c hcam s2 b2 h2
  subst hb1
  subst hb2
  refine ⟨by simp [bne], by simp [bne], ?_, ?_⟩ <;> rw [htr] <;> simp

/-- The state and result of the C4 witness run of start_live_acquisition
on a state whose trigger mode is external. -/
def wC4live : PyState × Bool :=
  match start_live_acquisition wExt with
  | Except.ok p => p
  | Except.error _ => (sys0, false)

theorem start_acquisition_false_iff_error_witness :
    ((wC3res.2 = false ↔ (wExt.oracle wExt.clock).1 = "error") ∧
     (wC4live.2 = false ↔ (wExt.oracle wExt.clock).1 = "error") ∧
     SDKCall.setupAcquisition "sequence" 100 ∈ wC4live.1.trace ∧
     SDKCall.startAcquisition "sequence" 100 ∈ wC4live.1.trace) :=
  start_acquisition_false_iff_error wExt
    { DCAMCamera.fresh with exposure := 1, triggerMode := "ext" } rfl
    wC3res.1 wC4live.1 wC3res.2 wC4live.2 rfl rfl

/-- C5: stop_acquisition issues the SDK stop request followed by an
acquisition-in-progress query, and returns true iff that query reports
that acquisition is no longer in progress. -/
theorem stop_acquisition_confirms (s : PyState) (c : DCAMCamera)
    (hcam : s.adapter.cam = Option.some c) (s1 : PyState) (b : Bool)
    (h : stop_acquisition s = Except.ok (s1, b)) :
    (b = true ↔ (s.oracle s.clock).2 = false) ∧
    s1.trace = s.trace ++ [SDKCall.sdkStopAcquisition, SDKCall.sdkAcqInProgress] := by
  simp [stop_acquisition, hcam] at h
  obtain ⟨h1, h2⟩ := h
  subst h1
  refine ⟨?_, by simp [logCall]⟩
  rw [h2]
  cases b <;> simp

/-- The state and result of the C5 witness run of stop_acquisition. -/
def wC5stop : PyState × Bool :=
  match stop_acquisition sysActive with
  | Except.ok p => p
  | Except.error _ => (sys0, false)

theorem stop_acquisition_confirms_witness :
    ((wC5stop.2 = true ↔ (sysActive.oracle sysActive.clock).2 = false) ∧
     wC5stop.1.trace = sysActive.trace ++
       [SDKCall.sdkStopAcquisition, SDKCall.sdkAcqInProgress]) :=
  stop_acquisition_confirms sysActive { DCAMCamera.fresh with exposure := 1 } rfl
    wC5stop.1 wC5stop.2 rfl

/-- C6: get_ready_state returns true iff the SDK status equals the
literal string ready; every other status yields false. -/
theorem ready_state_iff_ready (s : PyState) (c : DCAMCamera)
    (hcam : s.adapter.cam = Option.some c) (s1 : PyState) (b : Bool)
    (h : get_ready_state s = Except.ok (s1, b)) :
    b = true ↔ (s.oracle s.clock).1 = "ready" := by
  simp [get_ready_state, hcam] at h
  obtain ⟨-, h2⟩ := h
  subst h2
  simp

/-- An oracle whose first report is the status acquiring, to witness the
false case of get_ready_state. -/
def oracleAcquiring : ℕ → String × Bool := fun _ => ("acquiring", true)

/-- An activated state whose hardware reports status acquiring. -/
def sysAcquiring : PyState := on_activate cfg0 (initState oracleAcquiring)

/-- The state and result of the C6 witness run of get_ready_state. -/
def wC6ready : PyState × Bool :=
  match get_ready_state sysAcquiring with
  | Except.ok p => p
  | Except.error _ => (sys0, false)

theorem ready_state_iff_ready_witness :
    (wC6ready.2 = true ↔ (sysAcquiring.oracle sysAcquiring.clock).1 = "ready") :=
  ready_state_iff_ready sysAcquiring { DCAMCamera.fresh with exposure := 1 } rfl
    wC6ready.1 wC6ready.2 rfl

/-- C7: on_activate first registers the DLL search path, then opens the
device, then issues exactly one SDK exposure-set call carrying the default
exposure; the default gain goes only to the local cache (so get_gain
returns it immediately after activation) and no other SDK attribute is
set. -/
theorem on_activate_effects (cfg : Config) (s : PyState) :
    (on_activate cfg s).trace = s.trace ++
      [SDKCall.registerDLL cfg.dll_location, SDKCall.openCamera,
       SDKCall.sdkSetExposure cfg.default_exposure] ∧
    get_gain (on_activate cfg s) = cfg.default_gain ∧
    (on_activate cfg s).adapter.cam =
      Option.some { DCAMCamera.fresh with exposure := cfg.default_exposure } ∧
    (on_activate cfg s).dllPath = Option.some cfg.dll_location := by
  refine ⟨?_, rfl, rfl, rfl⟩
  simp [on_activate, set_gain, logCall, setCam]

/-- C8: whenever the session is open and the DLL path registered (as after
any acquisition error, which changes neither), on_deactivate issues
exactly one session close followed by the DLL deregistration and no other
SDK call, leaving the DLL registration empty and the session closed. -/
theorem on_deactivate_effects (s : PyState) (c : DCAMCamera) (p : String)
    (hcam : s.adapter.cam = Option.some c) (hdll : s.dllPath = Option.some p)
    (s1 : PyState) (h : on_deactivate s = Except.ok s1) :
    s1.trace = s.trace ++ [SDKCall.closeCamera, SDKCall.unregisterDLL] ∧
    s1.dllPath = Option.none ∧
    s1.adapter.cam = Option.some { c with opened := false } := by
  simp only [on_deactivate, hcam, logCall_dllPath, setCam_dllPath] at h
  rw [hdll] at h
  cases h
  refine ⟨?_, rfl, rfl⟩
  simp [logCall, setCam]

theorem on_deactivate_effects_witness :
    (wC2res.trace = sysActive.trace ++ [SDKCall.closeCamera, SDKCall.unregisterDLL] ∧
     wC2res.dllPath = Option.none ∧
     wC2res.adapter.cam =
       Option.some { ({ DCAMCamera.fresh with exposure := 1 } : DCAMCamera) with
         opened := false }) :=
  on_deactivate_effects sysActive { DCAMCamera.fresh with exposure := 1 }
    "C:/Adyant/dlls" rfl rfl wC2res rfl

/-- C9: set_gain and set_binning_value write only the adapter-local
cached scalars: the SDK trace, the session handle with its whole device
state, the DLL registration and the oracle clock are all unchanged, and
each setter leaves the other cache untouched. -/
theorem setters_touch_only_local_cache (s : PyState) (g b : Val) :
    (set_gain s g).trace = s.trace ∧
    (set_gain s g).adapter.cam = s.adapter.cam ∧
    (set_gain s g).dllPath = s.dllPath ∧
    (set_gain s g).clock = s.clock ∧
    (set_gain s g).adapter._bin_value = s.adapter._bin_value ∧
    (set_binning_value s b).trace = s.trace ∧
    (set_binning_value s b).adapter.cam = s.adapter.cam ∧
    (set_binning_value s b).dllPath = s.dllPath ∧
    (set_binning_value s b).clock = s.clock ∧
    (set_binning_value s b).adapter._gain = s.adapter._gain :=
  ⟨rfl, rfl, rfl, rfl, rfl, rfl, rfl, rfl, rfl, rfl⟩

/-- C10: on a fresh instance get_binning_value fails with an
attribute-lookup error, and it still fails right after activation, since
_bin_value has no class-level initialiser and on_activate never sets it;
by contrast get_gain is total: it returns None on the fresh instance and
the configured default gain after activation. -/
theorem fresh_binning_read_fails (cfg : Config) (o : ℕ → String × Bool) :
    get_binning_value (initState o) = Except.error PyErr.attributeError ∧
    get_gain (initState o) = Val.none ∧
    get_binning_value (on_activate cfg (initState o)) = Except.error PyErr.attributeError ∧
    get_gain (on_activate cfg (initState o)) = cfg.default_gain :=
  ⟨rfl, rfl, rfl, rfl⟩

end HamamatsuSpec
